import Mathlib

/-!
Verification of the audio-playback state machine of the quran.com front-end:
the `AudioPlayer` Redux slice (`src/redux/slices/AudioPlayer/state.ts`) and the
feedback widget that derives from it
(`src/components/FeedbackWidget/FeedbackWidget.tsx`).

The slice is embedded shallowly:
* the store state `AudioState` and the reducers of `audioPlayerStateSlice`
  become a state record and a pure `audioPlayerReducer` over an `Action` type;
* the three async thunks (`loadAndPlayAudioFile`, `setReciterAndPauseAudio`,
  `playFrom`) become pure functions that, given the audio-file provider as an
  oracle `Nat → Nat → Option AudioFile` (`none` models a rejected fetch),
  return the ordered trace of their observable steps — reducer dispatches,
  fetch requests, and calls on the playback trigger surface — together with an
  `Outcome` recording normal completion, a rejected fetch, or the
  null-dereference that occurs when `setReciterAndPauseAudio` reads
  `.chapterId` of an absent file;
* `runSteps` replays the dispatches of a trace over a state, so the state the
  slice holds after an operation is `runSteps s trace`, and the intermediate
  states during the thunk are `traceStates s trace`.
-/

namespace QuranAudio

/-- Status of the current audio file (source: `enum AudioFileStatus`). -/
inductive AudioFileStatus where
  | Ready
  | Loading
  | NoFile
deriving DecidableEq, Repr

/-- Modelled from the spec: the `Reciter` record (`types/Reciter` is not under
`src/`); the slice reads only its `id`, plus display metadata. -/
structure Reciter where
  id : Nat
  name : String
deriving DecidableEq, Repr

/-- Modelled from the spec: the `AudioFile` descriptor (`types/AudioFile` is not
under `src/`): identifier, owning chapter identifier, playable resource
locator. -/
structure AudioFile where
  id : Nat
  chapterId : Nat
  audioUrl : String
deriving DecidableEq, Repr

/-- Modelled from the spec: the fixed default reciter
(`./defaultData` is not under `src/`; the concrete field values are arbitrary,
no theorem depends on them). -/
def DEFAULT_RECITER : Reciter :=
  { id := 7, name := "default-reciter" }

/-- The aggregate held by the slice (source: `type AudioState`). `audioFile`
is `Option` because the source initialises it to `null`. -/
structure AudioState where
  isPlaying : Bool
  reciter : Reciter
  audioFile : Option AudioFile
  audioFileStatus : AudioFileStatus
  isMobileMinimizedForScrolling : Bool
  enableAutoScrolling : Bool
deriving DecidableEq, Repr

/-- Source: `initialState`. -/
def initialState : AudioState :=
  { enableAutoScrolling := true
    isPlaying := false
    audioFile := none
    reciter := DEFAULT_RECITER
    audioFileStatus := AudioFileStatus.NoFile
    isMobileMinimizedForScrolling := false }

/-- Source: `selectReciter`. -/
def selectReciter (s : AudioState) : Reciter := s.reciter

/-- Source: `selectAudioFile`. -/
def selectAudioFile (s : AudioState) : Option AudioFile := s.audioFile

/-- Source: `selectAudioFileStatus`. -/
def selectAudioFileStatus (s : AudioState) : AudioFileStatus := s.audioFileStatus

/-- Source: `selectIsPlaying`. -/
def selectIsPlaying (s : AudioState) : Bool := s.isPlaying

/-- Source: `selectIsMobileMinimizedForScrolling`. -/
def selectIsMobileMinimizedForScrolling (s : AudioState) : Bool :=
  s.isMobileMinimizedForScrolling

/-- Source: `selectIsUsingDefaultReciter`. -/
def selectIsUsingDefaultReciter (s : AudioState) : Bool :=
  s.reciter.id == DEFAULT_RECITER.id

/-- Source: `selectEnableAutoScrolling`. -/
def selectEnableAutoScrolling (s : AudioState) : Bool := s.enableAutoScrolling

/-- The actions handled by `audioPlayerStateSlice`: its own reducers plus the
externally dispatched `resetSettings` handled in `extraReducers`. -/
inductive Action where
  | setIsPlaying (b : Bool)
  | setIsMobileMinimizedForScrolling (b : Bool)
  | setReciter (r : Reciter)
  | setAudioFile (f : Option AudioFile)
  | setAudioStatus (st : AudioFileStatus)
  | setEnableAutoScrolling (b : Bool)
  | resetAudioFile
  | resetSettings
deriving DecidableEq, Repr

/-- The slice reducer: each case is the corresponding reducer of
`audioPlayerStateSlice` (a whole-field replacement; `resetSettings` is the
`extraReducers` case restoring the default reciter). -/
def audioPlayerReducer (s : AudioState) : Action → AudioState
  | Action.setIsPlaying b => { s with isPlaying := b }
  | Action.setIsMobileMinimizedForScrolling b => { s with isMobileMinimizedForScrolling := b }
  | Action.setReciter r => { s with reciter := r }
  | Action.setAudioFile f => { s with audioFile := f }
  | Action.setAudioStatus st => { s with audioFileStatus := st }
  | Action.setEnableAutoScrolling b => { s with enableAutoScrolling := b }
  | Action.resetAudioFile =>
      { s with audioFile := initialState.audioFile
               audioFileStatus := initialState.audioFileStatus }
  | Action.resetSettings => { s with reciter := DEFAULT_RECITER }

/-- One observable step of a thunk: a store dispatch, an issued fetch request
(keyed by reciter id and chapter id), or a call on the playback trigger
surface (`triggerPlayAudio`, `triggerPauseAudio`, `triggerSetCurrentTime`). -/
inductive Step where
  | dispatch (a : Action)
  | fetch (reciterId chapterId : Nat)
  | play
  | pause
  | setCurrentTime (seconds : ℚ)
deriving DecidableEq, Repr

/-- How a thunk run ended: normal completion, a rejected audio-file fetch
(the `await` throws), or the TypeError from reading `.chapterId` of an
absent `audioFile`. -/
inductive Outcome where
  | ok
  | fetchRejected
  | nullDeref
deriving DecidableEq, Repr

/-- Effect of a single step on the store: only dispatches mutate. -/
def applyStep (s : AudioState) : Step → AudioState
  | Step.dispatch a => audioPlayerReducer s a
  | Step.fetch _ _ => s
  | Step.play => s
  | Step.pause => s
  | Step.setCurrentTime _ => s

/-- Replay a trace over the store. -/
def runSteps (s : AudioState) (steps : List Step) : AudioState :=
  steps.foldl applyStep s

/-- All states the store passes through while a trace runs (the state before
the first step included). -/
def traceStates (s : AudioState) : List Step → List AudioState
  | [] => [s]
  | st :: rest => s :: traceStates (applyStep s st) rest

/-- Number of fetch requests in a trace. -/
def countFetches (steps : List Step) : Nat :=
  steps.countP fun st =>
    match st with
    | Step.fetch _ _ => true
    | _ => false

/-- Number of `play` calls in a trace. -/
def countPlays (steps : List Step) : Nat :=
  steps.countP fun st =>
    match st with
    | Step.play => true
    | _ => false

/-- Number of calls on the playback trigger surface in a trace. -/
def countTriggerCalls (steps : List Step) : Nat :=
  steps.countP fun st =>
    match st with
    | Step.play => true
    | Step.pause => true
    | Step.setCurrentTime _ => true
    | _ => false

/-- Source: thunk `loadAndPlayAudioFile`. If the current audio file already
belongs to `chapter`, play directly; otherwise dispatch
`setAudioStatus(Loading)`, fetch for (current reciter, `chapter`), dispatch
`setAudioFile(result)`, and play. `getChapterAudioFile` is the audio-file
provider oracle; `none` models a rejected fetch. -/
def loadAndPlayAudioFile (getChapterAudioFile : Nat → Nat → Option AudioFile)
    (chapter : Nat) (s : AudioState) : List Step × Outcome :=
  if (selectAudioFile s).any (fun currentAudioFile => currentAudioFile.chapterId == chapter) then
    ([Step.play], Outcome.ok)
  else
    let s1 := audioPlayerReducer s (Action.setAudioStatus AudioFileStatus.Loading)
    let reciter := selectReciter s1
    match getChapterAudioFile reciter.id chapter with
    | none =>
        ([Step.dispatch (Action.setAudioStatus AudioFileStatus.Loading),
          Step.fetch reciter.id chapter],
         Outcome.fetchRejected)
    | some audioFile =>
        ([Step.dispatch (Action.setAudioStatus AudioFileStatus.Loading),
          Step.fetch reciter.id chapter,
          Step.dispatch (Action.setAudioFile (some audioFile)),
          Step.play],
         Outcome.ok)

/-- Source: thunk `setReciterAndPauseAudio`. Dispatch `setAudioStatus(Loading)`,
pause, dispatch `setReciter`, then fetch for (`reciter.id`, current file's
`chapterId`) and dispatch `setAudioFile(result)`. Reading `.chapterId` of an
absent `audioFile` is the source's null dereference. -/
def setReciterAndPauseAudio (getChapterAudioFile : Nat → Nat → Option AudioFile)
    (reciter : Reciter) (s : AudioState) : List Step × Outcome :=
  let pre := [Step.dispatch (Action.setAudioStatus AudioFileStatus.Loading),
              Step.pause,
              Step.dispatch (Action.setReciter reciter)]
  let s1 := runSteps s pre
  match selectAudioFile s1 with
  | none => (pre, Outcome.nullDeref)
  | some currentAudioFile =>
      match getChapterAudioFile reciter.id currentAudioFile.chapterId with
      | none =>
          (pre ++ [Step.fetch reciter.id currentAudioFile.chapterId],
           Outcome.fetchRejected)
      | some audioFile =>
          (pre ++ [Step.fetch reciter.id currentAudioFile.chapterId,
                   Step.dispatch (Action.setAudioFile (some audioFile))],
           Outcome.ok)

/-- Source: `interface PlayFromInput`. `timestamp` is in milliseconds, kept as
a rational since the source divides it by 1000 before seeking. -/
structure PlayFromInput where
  timestamp : ℚ
  chapterId : Nat
  reciterId : Nat
deriving DecidableEq, Repr

/-- Source: thunk `playFrom`. If there is no current file, or its chapter
differs from `chapterId`, or the current reciter's id differs from
`reciterId`, dispatch `setAudioStatus(Loading)`, fetch for (current reciter,
`chapterId`) and dispatch `setAudioFile(result)`; in every completed run then
seek to `timestamp / 1000` seconds and play. -/
def playFrom (getChapterAudioFile : Nat → Nat → Option AudioFile)
    (input : PlayFromInput) (s : AudioState) : List Step × Outcome :=
  let reciter := selectReciter s
  let audioFile := selectAudioFile s
  if !(audioFile.any fun f => f.chapterId == input.chapterId)
      || reciter.id != input.reciterId then
    match getChapterAudioFile reciter.id input.chapterId with
    | none =>
        ([Step.dispatch (Action.setAudioStatus AudioFileStatus.Loading),
          Step.fetch reciter.id input.chapterId],
         Outcome.fetchRejected)
    | some audioFile2 =>
        ([Step.dispatch (Action.setAudioStatus AudioFileStatus.Loading),
          Step.fetch reciter.id input.chapterId,
          Step.dispatch (Action.setAudioFile (some audioFile2)),
          Step.setCurrentTime (input.timestamp / 1000),
          Step.play],
         Outcome.ok)
  else
    ([Step.setCurrentTime (input.timestamp / 1000), Step.play], Outcome.ok)

/-- Dispatching the `resetAudioFile` action as an operation: its trace is the
single dispatch (the reducer calls nothing on the trigger surface). -/
def resetAudioFileOp (s : AudioState) : List Step × AudioState :=
  ([Step.dispatch Action.resetAudioFile], audioPlayerReducer s Action.resetAudioFile)

/-- The classes and visibility the feedback widget derives from the store
(source: `FeedbackWidget.tsx`): `isHidden`, and whether the
`audioPlayerOpen` and `isMobileMinimizedForScrolling` class names are
applied to the container. -/
structure FeedbackWidgetView where
  isHidden : Bool
  audioPlayerOpenClass : Bool
  isMobileMinimizedForScrollingClass : Bool
deriving DecidableEq, Repr

/-- Source: component `FeedbackWidget`. `isHidden` is
`audioFileStatus === AudioFileStatus.NoFile`; the container gets the
`isMobileMinimizedForScrolling` class exactly when that flag is set and the
`audioPlayerOpen` class exactly when `!isHidden`. -/
def FeedbackWidget (s : AudioState) : FeedbackWidgetView :=
  let audioFileStatus := selectAudioFileStatus s
  let isMobileMinimizedForScrolling := selectIsMobileMinimizedForScrolling s
  let isHidden := audioFileStatus == AudioFileStatus.NoFile
  { isHidden := isHidden
    audioPlayerOpenClass := !isHidden
    isMobileMinimizedForScrollingClass := isMobileMinimizedForScrolling }

/-- The file a well-behaved provider returns for a request: its `chapterId`
is the requested chapter, as the spec's Audio File Provider contract
promises. -/
def fetchedFile (reciterId chapterId : Nat) : AudioFile :=
  { id := reciterId * 1000 + chapterId
    chapterId := chapterId
    audioUrl := "https://audio.example/file.mp3" }

/-- A provider oracle whose fetches always resolve with `fetchedFile`. Used to
instantiate theorems at concrete inputs. -/
def fetchOk : Nat → Nat → Option AudioFile :=
  fun reciterId chapterId => some (fetchedFile reciterId chapterId)

/-- A provider oracle whose fetches always reject. -/
def fetchFail : Nat → Nat → Option AudioFile := fun _ _ => none

/-- States the store can reach from `initialState` when the slice's
coordinated operations run sequentially: the three thunks (every state the
store passes through while a thunk runs counts, under any provider oracle),
`resetAudioFile`, the external `resetSettings` event, and the boolean field
setters. The raw `setAudioFile` / `setAudioStatus` / `setReciter` actions are
internal to the thunks and not closed over separately. -/
inductive Reachable : AudioState → Prop where
  | init : Reachable initialState
  | loadAndPlay (s : AudioState) (g : Nat → Nat → Option AudioFile) (chapter : Nat)
      (t : AudioState) (hs : Reachable s)
      (ht : t ∈ traceStates s (loadAndPlayAudioFile g chapter s).1) : Reachable t
  | reciterPause (s : AudioState) (g : Nat → Nat → Option AudioFile) (r : Reciter)
      (t : AudioState) (hs : Reachable s)
      (ht : t ∈ traceStates s (setReciterAndPauseAudio g r s).1) : Reachable t
  | playFromOp (s : AudioState) (g : Nat → Nat → Option AudioFile) (input : PlayFromInput)
      (t : AudioState) (hs : Reachable s)
      (ht : t ∈ traceStates s (playFrom g input s).1) : Reachable t
  | resetFile (s : AudioState) (hs : Reachable s) :
      Reachable (audioPlayerReducer s Action.resetAudioFile)
  | resetSettingsEvent (s : AudioState) (hs : Reachable s) :
      Reachable (audioPlayerReducer s Action.resetSettings)
  | playingFlag (s : AudioState) (b : Bool) (hs : Reachable s) :
      Reachable (audioPlayerReducer s (Action.setIsPlaying b))
  | minimizedFlag (s : AudioState) (b : Bool) (hs : Reachable s) :
      Reachable (audioPlayerReducer s (Action.setIsMobileMinimizedForScrolling b))
  | autoScrollFlag (s : AudioState) (b : Bool) (hs : Reachable s) :
      Reachable (audioPlayerReducer s (Action.setEnableAutoScrolling b))

/-- A concrete audio file of chapter 5, for instantiating theorems. -/
def file5 : AudioFile :=
  { id := 5005, chapterId := 5, audioUrl := "https://audio.example/5.mp3" }

/-- A concrete state holding `file5`, for instantiating theorems. -/
def stateWithFile5 : AudioState :=
  { initialState with audioFile := some file5, audioFileStatus := AudioFileStatus.Loading }

/-- A concrete non-default reciter, for instantiating theorems. -/
def reciterTwo : Reciter := { id := 2, name := "second-reciter" }

/-- Claim C3: when the current audio file's chapter already matches, the
`loadAndPlayAudioFile` thunk issues no fetch, performs no state mutation, and
invokes `play` on the trigger surface exactly once. -/
theorem C3_skip_plays_once (getChapterAudioFile : Nat → Nat → Option AudioFile)
    (s : AudioState) (f : AudioFile) (chapter : Nat)
    (hf : selectAudioFile s = some f) (hc : f.chapterId = chapter) :
    (loadAndPlayAudioFile getChapterAudioFile chapter s).1 = [Step.play] ∧
    (loadAndPlayAudioFile getChapterAudioFile chapter s).2 = Outcome.ok ∧
    countFetches (loadAndPlayAudioFile getChapterAudioFile chapter s).1 = 0 ∧
    runSteps s (loadAndPlayAudioFile getChapterAudioFile chapter s).1 = s ∧
    countPlays (loadAndPlayAudioFile getChapterAudioFile chapter s).1 = 1 := by
  have hcond :
      (selectAudioFile s).any (fun currentAudioFile => currentAudioFile.chapterId == chapter)
        = true := by
    rw [hf]
    simp [hc]
  simp [loadAndPlayAudioFile, hcond, countFetches, countPlays, runSteps, applyStep]

/-- Witness for C3 at a concrete state holding a chapter-5 file. -/
theorem C3_skip_plays_once_witness :
    (loadAndPlayAudioFile fetchOk 5 stateWithFile5).1 = [Step.play] ∧
    (loadAndPlayAudioFile fetchOk 5 stateWithFile5).2 = Outcome.ok ∧
    countFetches (loadAndPlayAudioFile fetchOk 5 stateWithFile5).1 = 0 ∧
    runSteps stateWithFile5 (loadAndPlayAudioFile fetchOk 5 stateWithFile5).1 = stateWithFile5 ∧
    countPlays (loadAndPlayAudioFile fetchOk 5 stateWithFile5).1 = 1 :=
  C3_skip_plays_once fetchOk stateWithFile5 file5 5 (by decide) (by decide)

/-- Claim C7: the external reset-settings event restores the default reciter
and leaves every other field of the aggregate unchanged, for every prior
state. -/
theorem C7_resetSettings_frame (s : AudioState) :
    (audioPlayerReducer s Action.resetSettings).reciter = DEFAULT_RECITER ∧
    (audioPlayerReducer s Action.resetSettings).audioFile = s.audioFile ∧
    (audioPlayerReducer s Action.resetSettings).audioFileStatus = s.audioFileStatus ∧
    (audioPlayerReducer s Action.resetSettings).isPlaying = s.isPlaying ∧
    (audioPlayerReducer s Action.resetSettings).isMobileMinimizedForScrolling
      = s.isMobileMinimizedForScrolling ∧
    (audioPlayerReducer s Action.resetSettings).enableAutoScrolling = s.enableAutoScrolling :=
  ⟨rfl, rfl, rfl, rfl, rfl, rfl⟩

/-- Claim C8: `resetAudioFile` clears the audio file, sets status `NoFile`,
calls nothing on the playback trigger surface, and is idempotent. -/
theorem C8_resetAudioFile_idempotent (s : AudioState) :
    (resetAudioFileOp s).2.audioFile = none ∧
    (resetAudioFileOp s).2.audioFileStatus = AudioFileStatus.NoFile ∧
    countTriggerCalls (resetAudioFileOp s).1 = 0 ∧
    (resetAudioFileOp (resetAudioFileOp s).2).2 = (resetAudioFileOp s).2 :=
  ⟨rfl, rfl, rfl, rfl⟩

/-- Claim C9: the skip branch of `loadAndPlayAudioFile` compares only the
chapter: whatever reciter `r` the state currently holds — in particular one
differing from the reciter the stored file was fetched for — a call with the
stored file's chapter plays without fetching and without touching the
state. -/
theorem C9_skip_ignores_reciter (getChapterAudioFile : Nat → Nat → Option AudioFile)
    (s : AudioState) (r : Reciter) (f : AudioFile) (chapter : Nat)
    (hf : selectAudioFile s = some f) (hc : f.chapterId = chapter) :
    loadAndPlayAudioFile getChapterAudioFile chapter { s with reciter := r }
      = ([Step.play], Outcome.ok) ∧
    countFetches (loadAndPlayAudioFile getChapterAudioFile chapter { s with reciter := r }).1
      = 0 ∧
    runSteps { s with reciter := r }
        (loadAndPlayAudioFile getChapterAudioFile chapter { s with reciter := r }).1
      = { s with reciter := r } := by
  have hf2 : selectAudioFile { s with reciter := r } = some f := hf
  have hcond :
      (selectAudioFile { s with reciter := r }).any
          (fun currentAudioFile => currentAudioFile.chapterId == chapter) = true := by
    rw [hf2]
    simp [hc]
  simp [loadAndPlayAudioFile, hcond, countFetches, runSteps, applyStep]

/-- Witness for C9: the stored chapter-5 file plays directly even with a
reciter other than the one the state was built with. -/
theorem C9_skip_ignores_reciter_witness :
    loadAndPlayAudioFile fetchOk 5 { stateWithFile5 with reciter := reciterTwo }
      = ([Step.play], Outcome.ok) ∧
    countFetches
        (loadAndPlayAudioFile fetchOk 5 { stateWithFile5 with reciter := reciterTwo }).1 = 0 ∧
    runSteps { stateWithFile5 with reciter := reciterTwo }
        (loadAndPlayAudioFile fetchOk 5 { stateWithFile5 with reciter := reciterTwo }).1
      = { stateWithFile5 with reciter := reciterTwo } :=
  C9_skip_ignores_reciter fetchOk stateWithFile5 reciterTwo file5 5 (by decide) (by decide)

/-- Claim C10: the feedback widget is hidden exactly when the status is
`NoFile`, hence marked open if and only if the status is `Loading` or
`Ready` (it reacts already while loading), and its minimized-for-scrolling
class follows the `isMobileMinimizedForScrolling` flag independently of the
status. -/
theorem C10_feedback_widget (s : AudioState) :
    (FeedbackWidget s).isHidden = (selectAudioFileStatus s == AudioFileStatus.NoFile) ∧
    ((FeedbackWidget s).audioPlayerOpenClass = true ↔
      selectAudioFileStatus s = AudioFileStatus.Loading ∨
        selectAudioFileStatus s = AudioFileStatus.Ready) ∧
    (FeedbackWidget s).isMobileMinimizedForScrollingClass
      = selectIsMobileMinimizedForScrolling s := by
  obtain ⟨p, r, f, st, m, a⟩ := s
  cases st <;>
    simp [FeedbackWidget, selectAudioFileStatus, selectIsMobileMinimizedForScrolling]

/-- Claim C4: with an audio file present, `setReciterAndPauseAudio` performs,
in this strict order: dispatch `setAudioStatus(Loading)`, `pause`, dispatch
`setReciter`, fetch keyed by (new reciter's id, current file's chapter),
dispatch `setAudioFile(result)`; after successful completion the reciter is
the new one and the file's chapter is unchanged (given the provider contract
that the fetched file carries the requested chapter). Without a current
file, the chapter read dereferences the absent `audioFile`. -/
theorem C4_setReciter_strict_order :
    (∀ (getChapterAudioFile : Nat → Nat → Option AudioFile) (r : Reciter) (s : AudioState)
        (cur f : AudioFile),
      (∀ (reciterId chapterId : Nat) (g : AudioFile),
          getChapterAudioFile reciterId chapterId = some g → g.chapterId = chapterId) →
      selectAudioFile s = some cur →
      getChapterAudioFile r.id cur.chapterId = some f →
      (setReciterAndPauseAudio getChapterAudioFile r s).1 =
        [Step.dispatch (Action.setAudioStatus AudioFileStatus.Loading),
         Step.pause,
         Step.dispatch (Action.setReciter r),
         Step.fetch r.id cur.chapterId,
         Step.dispatch (Action.setAudioFile (some f))] ∧
      (setReciterAndPauseAudio getChapterAudioFile r s).2 = Outcome.ok ∧
      (runSteps s (setReciterAndPauseAudio getChapterAudioFile r s).1).reciter = r ∧
      (runSteps s (setReciterAndPauseAudio getChapterAudioFile r s).1).audioFile = some f ∧
      f.chapterId = cur.chapterId) ∧
    (∀ (getChapterAudioFile : Nat → Nat → Option AudioFile) (r : Reciter) (s : AudioState),
      selectAudioFile s = none →
      (setReciterAndPauseAudio getChapterAudioFile r s).2 = Outcome.nullDeref ∧
      (setReciterAndPauseAudio getChapterAudioFile r s).1 =
        [Step.dispatch (Action.setAudioStatus AudioFileStatus.Loading),
         Step.pause,
         Step.dispatch (Action.setReciter r)]) := by
  constructor
  · intro getChapterAudioFile r s cur f hprov hcur hfetch
    have hcur2 : s.audioFile = some cur := hcur
    have hchap : f.chapterId = cur.chapterId := hprov r.id cur.chapterId f hfetch
    refine ⟨?_, ?_, ?_, ?_, hchap⟩ <;>
      simp [setReciterAndPauseAudio, runSteps, applyStep, audioPlayerReducer,
        selectAudioFile, hcur2, hfetch]
  · intro getChapterAudioFile r s hnone
    have hnone2 : s.audioFile = none := hnone
    constructor <;>
      simp [setReciterAndPauseAudio, runSteps, applyStep, audioPlayerReducer,
        selectAudioFile, hnone2]

/-- Witness for C4: concrete successful run from a state holding a chapter-5
file, and the null dereference from the initial (file-less) state. -/
theorem C4_setReciter_strict_order_witness :
    ((setReciterAndPauseAudio fetchOk reciterTwo stateWithFile5).1 =
        [Step.dispatch (Action.setAudioStatus AudioFileStatus.Loading),
         Step.pause,
         Step.dispatch (Action.setReciter reciterTwo),
         Step.fetch reciterTwo.id file5.chapterId,
         Step.dispatch (Action.setAudioFile (some (fetchedFile reciterTwo.id file5.chapterId)))] ∧
      (setReciterAndPauseAudio fetchOk reciterTwo stateWithFile5).2 = Outcome.ok ∧
      (runSteps stateWithFile5
          (setReciterAndPauseAudio fetchOk reciterTwo stateWithFile5).1).reciter = reciterTwo ∧
      (runSteps stateWithFile5
          (setReciterAndPauseAudio fetchOk reciterTwo stateWithFile5).1).audioFile
        = some (fetchedFile reciterTwo.id file5.chapterId) ∧
      (fetchedFile reciterTwo.id file5.chapterId).chapterId = file5.chapterId) ∧
    ((setReciterAndPauseAudio fetchOk reciterTwo initialState).2 = Outcome.nullDeref ∧
      (setReciterAndPauseAudio fetchOk reciterTwo initialState).1 =
        [Step.dispatch (Action.setAudioStatus AudioFileStatus.Loading),
         Step.pause,
         Step.dispatch (Action.setReciter reciterTwo)]) :=
  ⟨C4_setReciter_strict_order.1 fetchOk reciterTwo stateWithFile5 file5
      (fetchedFile reciterTwo.id file5.chapterId)
      (by
        intro a b g h
        simp [fetchOk, fetchedFile] at h
        simp [← h, fetchedFile])
      (by decide) (by decide),
    C4_setReciter_strict_order.2 fetchOk reciterTwo initialState (by decide)⟩

/-- Claim C5: for every timestamp `t ≥ 0`, a completed `playFrom` run emits
`setCurrentTime (t / 1000)` followed immediately by `play`, after a prefix
containing no trigger-surface call at all — so the seek strictly precedes
`play` in both the fetching branch and the non-fetching branch. -/
theorem C5_seek_strictly_before_play (getChapterAudioFile : Nat → Nat → Option AudioFile)
    (input : PlayFromInput) (s : AudioState)
    (_ht : 0 ≤ input.timestamp)
    (hok : (playFrom getChapterAudioFile input s).2 = Outcome.ok) :
    ∃ pre,
      (playFrom getChapterAudioFile input s).1 =
        pre ++ [Step.setCurrentTime (input.timestamp / 1000), Step.play] ∧
      countTriggerCalls pre = 0 := by
  by_cases hcond :
      (!((selectAudioFile s).any fun f => f.chapterId == input.chapterId)
        || (selectReciter s).id != input.reciterId) = true
  · cases hfetch : getChapterAudioFile (selectReciter s).id input.chapterId with
    | none =>
        rw [playFrom] at hok
        simp only [hcond, if_true, hfetch] at hok
        cases hok
    | some audioFile2 =>
        refine ⟨[Step.dispatch (Action.setAudioStatus AudioFileStatus.Loading),
                 Step.fetch (selectReciter s).id input.chapterId,
                 Step.dispatch (Action.setAudioFile (some audioFile2))], ?_, rfl⟩
        rw [playFrom]
        simp only [hcond, if_true, hfetch]
        rfl
  · refine ⟨[], ?_, rfl⟩
    rw [playFrom]
    simp only [hcond, if_false, Bool.false_eq_true]
    rfl

/-- Witness for C5: the fetching branch from the initial state at timestamp
2500 ms seeks to 2.5 s right before playing. -/
theorem C5_seek_strictly_before_play_witness :
    ∃ pre,
      (playFrom fetchOk { timestamp := 2500, chapterId := 2, reciterId := 7 }
          initialState).1 =
        pre ++ [Step.setCurrentTime ((2500 : ℚ) / 1000), Step.play] ∧
      countTriggerCalls pre = 0 :=
  C5_seek_strictly_before_play fetchOk { timestamp := 2500, chapterId := 2, reciterId := 7 }
    initialState (by norm_num) (by decide)

/-- Claim C6: when the audio-file fetch rejects after status was set to
`Loading`, each of the three thunks terminates with the rejection and reverts
nothing: the final state keeps `audioFileStatus = Loading` together with every
mutation dispatched before the fetch (in `setReciterAndPauseAudio` the new
reciter), and nothing was played. -/
theorem C6_no_recovery_on_rejected_fetch :
    (∀ (getChapterAudioFile : Nat → Nat → Option AudioFile) (chapter : Nat) (s : AudioState),
      (selectAudioFile s).any (fun f => f.chapterId == chapter) = false →
      getChapterAudioFile (selectReciter s).id chapter = none →
      (loadAndPlayAudioFile getChapterAudioFile chapter s).2 = Outcome.fetchRejected ∧
      runSteps s (loadAndPlayAudioFile getChapterAudioFile chapter s).1
        = { s with audioFileStatus := AudioFileStatus.Loading } ∧
      countPlays (loadAndPlayAudioFile getChapterAudioFile chapter s).1 = 0) ∧
    (∀ (getChapterAudioFile : Nat → Nat → Option AudioFile) (r : Reciter) (s : AudioState)
        (cur : AudioFile),
      selectAudioFile s = some cur →
      getChapterAudioFile r.id cur.chapterId = none →
      (setReciterAndPauseAudio getChapterAudioFile r s).2 = Outcome.fetchRejected ∧
      runSteps s (setReciterAndPauseAudio getChapterAudioFile r s).1
        = { s with audioFileStatus := AudioFileStatus.Loading, reciter := r } ∧
      countPlays (setReciterAndPauseAudio getChapterAudioFile r s).1 = 0) ∧
    (∀ (getChapterAudioFile : Nat → Nat → Option AudioFile) (input : PlayFromInput)
        (s : AudioState),
      (!((selectAudioFile s).any fun f => f.chapterId == input.chapterId)
        || (selectReciter s).id != input.reciterId) = true →
      getChapterAudioFile (selectReciter s).id input.chapterId = none →
      (playFrom getChapterAudioFile input s).2 = Outcome.fetchRejected ∧
      runSteps s (playFrom getChapterAudioFile input s).1
        = { s with audioFileStatus := AudioFileStatus.Loading } ∧
      countPlays (playFrom getChapterAudioFile input s).1 = 0) := by
  refine ⟨?_, ?_, ?_⟩
  · intro getChapterAudioFile chapter s hskip hfetch
    have hfetch2 : getChapterAudioFile s.reciter.id chapter = none := hfetch
    refine ⟨?_, ?_, ?_⟩ <;>
      simp [loadAndPlayAudioFile, hskip, hfetch2, runSteps, applyStep, audioPlayerReducer,
        countPlays, selectReciter]
  · intro getChapterAudioFile r s cur hcur hfetch
    have hcur2 : s.audioFile = some cur := hcur
    refine ⟨?_, ?_, ?_⟩ <;>
      simp [setReciterAndPauseAudio, hcur2, hfetch, runSteps, applyStep, audioPlayerReducer,
        countPlays, selectAudioFile]
  · intro getChapterAudioFile input s hcond hfetch
    have hfetch2 : getChapterAudioFile s.reciter.id input.chapterId = none := hfetch
    have hcond2 :
        Option.any (fun f => f.chapterId == input.chapterId) (selectAudioFile s) = false
          ∨ ¬s.reciter.id = input.reciterId := by
      simpa using hcond
    refine ⟨?_, ?_, ?_⟩ <;>
      simp [playFrom, hcond2, hfetch2, runSteps, applyStep, audioPlayerReducer,
        countPlays, selectReciter]

/-- Witness for C6: concrete rejected fetches with the always-failing
provider, for each of the three thunks. -/
theorem C6_no_recovery_on_rejected_fetch_witness :
    ((loadAndPlayAudioFile fetchFail 2 initialState).2 = Outcome.fetchRejected ∧
      runSteps initialState (loadAndPlayAudioFile fetchFail 2 initialState).1
        = { initialState with audioFileStatus := AudioFileStatus.Loading } ∧
      countPlays (loadAndPlayAudioFile fetchFail 2 initialState).1 = 0) ∧
    ((setReciterAndPauseAudio fetchFail reciterTwo stateWithFile5).2 = Outcome.fetchRejected ∧
      runSteps stateWithFile5 (setReciterAndPauseAudio fetchFail reciterTwo stateWithFile5).1
        = { stateWithFile5 with
            audioFileStatus := AudioFileStatus.Loading
            reciter := reciterTwo } ∧
      countPlays (setReciterAndPauseAudio fetchFail reciterTwo stateWithFile5).1 = 0) ∧
    ((playFrom fetchFail { timestamp := 2500, chapterId := 2, reciterId := 7 }
        initialState).2 = Outcome.fetchRejected ∧
      runSteps initialState
          (playFrom fetchFail { timestamp := 2500, chapterId := 2, reciterId := 7 }
            initialState).1
        = { initialState with audioFileStatus := AudioFileStatus.Loading } ∧
      countPlays (playFrom fetchFail { timestamp := 2500, chapterId := 2, reciterId := 7 }
        initialState).1 = 0) :=
  ⟨C6_no_recovery_on_rejected_fetch.1 fetchFail 2 initialState (by decide) (by decide),
   C6_no_recovery_on_rejected_fetch.2.1 fetchFail reciterTwo stateWithFile5 file5
     (by decide) (by decide),
   C6_no_recovery_on_rejected_fetch.2.2 fetchFail
     { timestamp := 2500, chapterId := 2, reciterId := 7 } initialState
     (by decide) (by decide)⟩

/-- Counterexample to claim C1: running `loadAndPlayAudioFile` from the
initial state with a provider whose fetch resolves successfully leaves the
resulting state with the fetched file but with status `Loading`, not `Ready`
— `setAudioFile` replaces only `audioFile` and nothing in the slice ever
dispatches `setAudioStatus(Ready)`. -/
theorem C1_counterexample :
    (loadAndPlayAudioFile fetchOk 2 initialState).2 = Outcome.ok ∧
    countFetches (loadAndPlayAudioFile fetchOk 2 initialState).1 = 1 ∧
    (runSteps initialState (loadAndPlayAudioFile fetchOk 2 initialState).1).audioFile
      = some (fetchedFile DEFAULT_RECITER.id 2) ∧
    (runSteps initialState (loadAndPlayAudioFile fetchOk 2 initialState).1).audioFileStatus
      ≠ AudioFileStatus.Ready := by
  decide

/-- Claim C1 as amended: for each of the three fetching thunks, whenever the
audio-file fetch resolves successfully, the resulting state has `audioFile`
equal to the fetched result and status equal to `Loading` — not `Ready`,
because `setAudioFile` leaves `audioFileStatus` untouched and `Ready` is
never assigned. -/
theorem C1_amended_fetch_success_leaves_loading :
    (∀ (getChapterAudioFile : Nat → Nat → Option AudioFile) (chapter : Nat) (s : AudioState)
        (f : AudioFile),
      (selectAudioFile s).any (fun g => g.chapterId == chapter) = false →
      getChapterAudioFile s.reciter.id chapter = some f →
      (loadAndPlayAudioFile getChapterAudioFile chapter s).2 = Outcome.ok ∧
      (runSteps s (loadAndPlayAudioFile getChapterAudioFile chapter s).1).audioFile = some f ∧
      (runSteps s (loadAndPlayAudioFile getChapterAudioFile chapter s).1).audioFileStatus
        = AudioFileStatus.Loading) ∧
    (∀ (getChapterAudioFile : Nat → Nat → Option AudioFile) (r : Reciter) (s : AudioState)
        (cur f : AudioFile),
      selectAudioFile s = some cur →
      getChapterAudioFile r.id cur.chapterId = some f →
      (setReciterAndPauseAudio getChapterAudioFile r s).2 = Outcome.ok ∧
      (runSteps s (setReciterAndPauseAudio getChapterAudioFile r s).1).audioFile = some f ∧
      (runSteps s (setReciterAndPauseAudio getChapterAudioFile r s).1).audioFileStatus
        = AudioFileStatus.Loading) ∧
    (∀ (getChapterAudioFile : Nat → Nat → Option AudioFile) (input : PlayFromInput)
        (s : AudioState) (f : AudioFile),
      (!((selectAudioFile s).any fun g => g.chapterId == input.chapterId)
        || (selectReciter s).id != input.reciterId) = true →
      getChapterAudioFile s.reciter.id input.chapterId = some f →
      (playFrom getChapterAudioFile input s).2 = Outcome.ok ∧
      (runSteps s (playFrom getChapterAudioFile input s).1).audioFile = some f ∧
      (runSteps s (playFrom getChapterAudioFile input s).1).audioFileStatus
        = AudioFileStatus.Loading) := by
  refine ⟨?_, ?_, ?_⟩
  · intro getChapterAudioFile chapter s f hskip hfetch
    refine ⟨?_, ?_, ?_⟩ <;>
      simp [loadAndPlayAudioFile, hskip, hfetch, runSteps, applyStep, audioPlayerReducer,
        selectReciter]
  · intro getChapterAudioFile r s cur f hcur hfetch
    have hcur2 : s.audioFile = some cur := hcur
    refine ⟨?_, ?_, ?_⟩ <;>
      simp [setReciterAndPauseAudio, hcur2, hfetch, runSteps, applyStep, audioPlayerReducer,
        selectAudioFile]
  · intro getChapterAudioFile input s f hcond hfetch
    have hcond2 :
        Option.any (fun g => g.chapterId == input.chapterId) (selectAudioFile s) = false
          ∨ ¬s.reciter.id = input.reciterId := by
      simpa using hcond
    refine ⟨?_, ?_, ?_⟩ <;>
      simp [playFrom, hcond2, hfetch, runSteps, applyStep, audioPlayerReducer,
        selectReciter]

/-- Witness for the amended C1: concrete successful fetches for the three
thunks, each ending with the fetched file stored and status `Loading`. -/
theorem C1_amended_fetch_success_leaves_loading_witness :
    ((loadAndPlayAudioFile fetchOk 2 initialState).2 = Outcome.ok ∧
      (runSteps initialState (loadAndPlayAudioFile fetchOk 2 initialState).1).audioFile
        = some (fetchedFile initialState.reciter.id 2) ∧
      (runSteps initialState (loadAndPlayAudioFile fetchOk 2 initialState).1).audioFileStatus
        = AudioFileStatus.Loading) ∧
    ((setReciterAndPauseAudio fetchOk reciterTwo stateWithFile5).2 = Outcome.ok ∧
      (runSteps stateWithFile5
          (setReciterAndPauseAudio fetchOk reciterTwo stateWithFile5).1).audioFile
        = some (fetchedFile reciterTwo.id file5.chapterId) ∧
      (runSteps stateWithFile5
          (setReciterAndPauseAudio fetchOk reciterTwo stateWithFile5).1).audioFileStatus
        = AudioFileStatus.Loading) ∧
    ((playFrom fetchOk { timestamp := 2500, chapterId := 2, reciterId := 7 }
        initialState).2 = Outcome.ok ∧
      (runSteps initialState
          (playFrom fetchOk { timestamp := 2500, chapterId := 2, reciterId := 7 }
            initialState).1).audioFile
        = some (fetchedFile initialState.reciter.id 2) ∧
      (runSteps initialState
          (playFrom fetchOk { timestamp := 2500, chapterId := 2, reciterId := 7 }
            initialState).1).audioFileStatus
        = AudioFileStatus.Loading) :=
  ⟨C1_amended_fetch_success_leaves_loading.1 fetchOk 2 initialState
      (fetchedFile initialState.reciter.id 2) (by decide) (by decide),
    C1_amended_fetch_success_leaves_loading.2.1 fetchOk reciterTwo stateWithFile5 file5
      (fetchedFile reciterTwo.id file5.chapterId) (by decide) (by decide),
    C1_amended_fetch_success_leaves_loading.2.2 fetchOk
      { timestamp := 2500, chapterId := 2, reciterId := 7 } initialState
      (fetchedFile initialState.reciter.id 2) (by decide) (by decide)⟩

/-- States passed through by `loadAndPlayAudioFile` keep the property that
status `NoFile` entails an absent file: each is the start state or has
status `Loading`. -/
theorem loadAndPlay_trace_inv (g : Nat → Nat → Option AudioFile) (chapter : Nat)
    (s t : AudioState)
    (hinv : s.audioFileStatus = AudioFileStatus.NoFile → s.audioFile = none)
    (ht : t ∈ traceStates s (loadAndPlayAudioFile g chapter s).1) :
    t.audioFileStatus = AudioFileStatus.NoFile → t.audioFile = none := by
  by_cases hcond : ((selectAudioFile s).any fun f => f.chapterId == chapter) = true
  · rw [loadAndPlayAudioFile] at ht
    simp only [hcond, if_true] at ht
    simp [traceStates, applyStep] at ht
    subst ht
    exact hinv
  · rw [loadAndPlayAudioFile] at ht
    simp only [Bool.not_eq_true] at hcond
    simp only [hcond, Bool.false_eq_true, if_false] at ht
    cases hfetch :
        g (selectReciter (audioPlayerReducer s
          (Action.setAudioStatus AudioFileStatus.Loading))).id chapter with
    | none =>
        rw [hfetch] at ht
        simp [traceStates, applyStep, audioPlayerReducer] at ht
        rcases ht with rfl | rfl
        · exact hinv
        · intro hn
          simp at hn
    | some audioFile =>
        rw [hfetch] at ht
        simp [traceStates, applyStep, audioPlayerReducer] at ht
        rcases ht with rfl | rfl | rfl
        · exact hinv
        · intro hn
          simp at hn
        · intro hn
          simp at hn

/-- States passed through by `setReciterAndPauseAudio` keep the property that
status `NoFile` entails an absent file: each is the start state or has
status `Loading`. -/
theorem setReciterAndPause_trace_inv (g : Nat → Nat → Option AudioFile) (r : Reciter)
    (s t : AudioState)
    (hinv : s.audioFileStatus = AudioFileStatus.NoFile → s.audioFile = none)
    (ht : t ∈ traceStates s (setReciterAndPauseAudio g r s).1) :
    t.audioFileStatus = AudioFileStatus.NoFile → t.audioFile = none := by
  rw [setReciterAndPauseAudio] at ht
  simp only [runSteps, List.foldl_cons, List.foldl_nil, applyStep, audioPlayerReducer,
    selectAudioFile] at ht
  cases hfile : s.audioFile with
  | none =>
      rw [hfile] at ht
      simp [traceStates, applyStep, audioPlayerReducer] at ht
      rcases ht with rfl | rfl | rfl
      · exact hinv
      · intro hn
        simp at hn
      · intro hn
        simp at hn
  | some cur =>
      rw [hfile] at ht
      dsimp only at ht
      cases hfetch : g r.id cur.chapterId with
      | none =>
          rw [hfetch] at ht
          simp [traceStates, applyStep, audioPlayerReducer] at ht
          rcases ht with rfl | rfl | rfl
          · exact hinv
          · intro hn
            simp at hn
          · intro hn
            simp at hn
      | some audioFile =>
          rw [hfetch] at ht
          simp [traceStates, applyStep, audioPlayerReducer] at ht
          rcases ht with rfl | rfl | rfl | rfl
          · exact hinv
          · intro hn
            simp at hn
          · intro hn
            simp at hn
          · intro hn
            simp at hn

/-- States passed through by `playFrom` keep the property that status
`NoFile` entails an absent file: each is the start state or has status
`Loading`. -/
theorem playFrom_trace_inv (g : Nat → Nat → Option AudioFile) (input : PlayFromInput)
    (s t : AudioState)
    (hinv : s.audioFileStatus = AudioFileStatus.NoFile → s.audioFile = none)
    (ht : t ∈ traceStates s (playFrom g input s).1) :
    t.audioFileStatus = AudioFileStatus.NoFile → t.audioFile = none := by
  by_cases hcond :
      (!((selectAudioFile s).any fun f => f.chapterId == input.chapterId)
        || (selectReciter s).id != input.reciterId) = true
  · rw [playFrom] at ht
    simp only [hcond, if_true] at ht
    cases hfetch : g (selectReciter s).id input.chapterId with
    | none =>
        rw [hfetch] at ht
        simp [traceStates, applyStep, audioPlayerReducer] at ht
        rcases ht with rfl | rfl
        · exact hinv
        · intro hn
          simp at hn
    | some audioFile2 =>
        rw [hfetch] at ht
        simp [traceStates, applyStep, audioPlayerReducer] at ht
        rcases ht with rfl | rfl | rfl
        · exact hinv
        · intro hn
          simp at hn
        · intro hn
          simp at hn
  · rw [playFrom] at ht
    simp only [Bool.not_eq_true] at hcond
    simp only [hcond, Bool.false_eq_true, if_false] at ht
    simp [traceStates, applyStep] at ht
    subst ht
    exact hinv

/-- Counterexample to claim C2: the invariant `status == NoFile ⇔ audioFile
absent` fails in a reachable state — right after `loadAndPlayAudioFile`
dispatches `setAudioStatus(Loading)` from the initial state, the status is
`Loading` while `audioFile` is still absent. -/
theorem C2_counterexample :
    ¬ (∀ s : AudioState, Reachable s →
        (s.audioFileStatus = AudioFileStatus.NoFile ↔ s.audioFile = none)) := by
  intro h
  have hr : Reachable { initialState with audioFileStatus := AudioFileStatus.Loading } :=
    Reachable.loadAndPlay initialState fetchOk 2
      { initialState with audioFileStatus := AudioFileStatus.Loading }
      Reachable.init (by decide)
  have h2 := (h _ hr).mpr rfl
  simp at h2

/-- Claim C2 as amended: in every state reachable sequentially from the
initial state by the slice's coordinated operations (the three thunks with
all their intermediate states, `resetAudioFile`, the reset-settings event,
and the boolean setters), status `NoFile` implies that `audioFile` is
absent. The converse direction of the claimed equivalence is false: during a
fetch the status is `Loading` while the file is still absent
(see the counterexample). -/
theorem C2_amended_noFile_implies_absent :
    ∀ s : AudioState, Reachable s →
      s.audioFileStatus = AudioFileStatus.NoFile → s.audioFile = none := by
  intro s hs
  induction hs with
  | init => intro; rfl
  | loadAndPlay s g chapter t hs ht ih => exact loadAndPlay_trace_inv g chapter s t ih ht
  | reciterPause s g r t hs ht ih => exact setReciterAndPause_trace_inv g r s t ih ht
  | playFromOp s g input t hs ht ih => exact playFrom_trace_inv g input s t ih ht
  | resetFile s hs ih => intro; rfl
  | resetSettingsEvent s hs ih => intro hn; exact ih hn
  | playingFlag s b hs ih => intro hn; exact ih hn
  | minimizedFlag s b hs ih => intro hn; exact ih hn
  | autoScrollFlag s b hs ih => intro hn; exact ih hn

/-- Witness for the amended C2 at the initial state, which is reachable and
has status `NoFile`. -/
theorem C2_amended_noFile_implies_absent_witness :
    initialState.audioFile = none :=
  C2_amended_noFile_implies_absent initialState Reachable.init rfl

end QuranAudio
